import Mathlib

/-!
Shallow embedding of the HEIF/AVIF codec adapter (HeifImagePlugin.py):
the zero-copy crop, the orientation reconciliation, the Exif metadata
extraction, and the encoder command building and streaming pipeline of
the save path.  Machine integers are modelled as Nat and Int (Python
integers are unbounded, so no wrap-around is needed); byte strings are
lists of Nat; fallible code returns Except.
-/

namespace HeifPlugin

/-- Pixel storage of a decoded file.  A `buffer` is an owned byte buffer
with an identity (so that sharing of the underlying storage can be
stated); a `view` is an ffi.buffer view into the storage with identity
`baseId`, starting at absolute byte offset `byteOffset`, of `len` bytes.
No constructor copies bytes: a view shares the base storage. -/
inductive PixelData where
  | buffer (id : Nat) (len : Nat)
  | view (baseId : Nat) (byteOffset : Nat) (len : Nat)
deriving Repr, DecidableEq

/-- Identity of the underlying storage. -/
def PixelData.baseId : PixelData → Nat
  | .buffer id _ => id
  | .view id _ _ => id

/-- Byte offset of the start of this buffer object inside the underlying
storage (an owned buffer starts at its own byte 0). -/
def PixelData.startOffset : PixelData → Nat
  | .buffer _ _ => 0
  | .view _ off _ => off

/-- Length in bytes of this buffer object. -/
def PixelData.byteLen : PixelData → Nat
  | .buffer _ len => len
  | .view _ _ len => len

/-- The container transformations chunk: pending crop rectangle
(x, y, width, height) and the orientation tag (0 = none, 1-8 = Exif
orientation codes). -/
structure Transformations where
  crop : Nat × Nat × Nat × Nat
  orientation_tag : Int
deriving Repr, DecidableEq

/-- A generic metadata item of the container: a type string and a data
payload (bytes). -/
structure MetadataItem where
  type : String
  data : List Nat
deriving Repr, DecidableEq

/-- Modelled from the spec: a piexif-style Exif directory.  Only the
Orientation tag of the 0th IFD is interpreted by the plugin, so it is
kept as a dedicated field; all other content is carried opaquely. -/
structure ExifDict where
  zerothOrientation : Option Int
  zerothOther : List (Nat × Int)
  otherIFDs : List (String × List (Nat × Int))
deriving Repr, DecidableEq

/-- An Exif payload held by a heif file: either raw bytes coming from the
container metadata, or the serialized form of a directory produced by
piexif.dump (the external serializer is modelled abstractly: its output
is represented by the directory that was dumped). -/
inductive ExifValue where
  | raw (bytes : List Nat)
  | dumped (d : ExifDict)
deriving Repr, DecidableEq

/-- Python truthiness of an Exif payload: empty byte strings are falsy;
a dumped directory is a nonempty byte string. -/
def ExifValue.truthy : ExifValue → Bool
  | .raw bytes => bytes ≠ []
  | .dumped _ => true

/-- A decoded HEIF file as the plugin sees it: the fields of the pyheif
decode result that the plugin reads or writes. -/
structure HeifFile where
  mode : String
  size : Nat × Nat
  stride : Nat
  data : PixelData
  transformations : Transformations
  exif : Option ExifValue
  metadata : List MetadataItem
deriving Repr, DecidableEq

/-! ## Zero-copy crop (`_crop_heif_file`) -/

/-- Embedding of `_crop_heif_file`: if the pending crop rectangle equals
the full bounds the input is returned unchanged; otherwise the mode must
be one of L, RGB, RGBA (pixel size 1, 3, 4 = length of the mode string),
and a view of `stride * crop.height` bytes starting `stride * crop.y +
pixel_size * crop.x` bytes into the current data is built over the same
underlying storage, with size and pending crop updated. -/
def crop_heif_file (heif : HeifFile) : Except String HeifFile :=
  let crop := heif.transformations.crop
  if crop = (0, 0, heif.size.1, heif.size.2) then
    .ok heif
  else if ¬ (heif.mode = "L" ∨ heif.mode = "RGB" ∨ heif.mode = "RGBA") then
    .error "Unknown mode"
  else
    let pixel_size := heif.mode.length
    let offset := heif.stride * crop.2.1 + pixel_size * crop.1
    let data := PixelData.view heif.data.baseId (heif.data.startOffset + offset)
      (heif.stride * crop.2.2.2)
    .ok { heif with
      size := (crop.2.2.1, crop.2.2.2),
      transformations := { heif.transformations with
        crop := (0, 0, crop.2.2.1, crop.2.2.2) },
      data := data }

/-! ## Orientation reconciliation (`_rotate_heif_file`) -/

/-- Fresh piexif directory holding only the orientation tag, as built by
the literal `\x7b'0th': \x7bpiexif.ImageIFD.Orientation: orientation\x7d\x7d`. -/
def freshExifDict (orientation : Int) : ExifDict :=
  { zerothOrientation := some orientation, zerothOther := [], otherIFDs := [] }

/-- Parsing an Exif payload with piexif.load.  Raw container bytes are
parsed by the external library, which is abstracted as the function
argument `load`; the serialized form of a dumped directory parses back
to that directory. -/
def exifLoad (load : List Nat → Except Unit ExifDict) : ExifValue → Except Unit ExifDict
  | .raw bytes => load bytes
  | .dumped d => .ok d

/-- Embedding of `_rotate_heif_file`, parameterized by the abstract
piexif parser `load`.  If the orientation tag is outside 1..8 the file
is returned unchanged.  Otherwise the Exif directory is the parse of the
present, truthy Exif payload with its orientation overwritten, or a
fresh directory holding only the orientation when the payload is absent,
falsy, or fails to parse; the tag is reset to 0 and the dumped directory
stored. -/
def rotate_heif_file (load : List Nat → Except Unit ExifDict) (heif : HeifFile) : HeifFile :=
  let orientation := heif.transformations.orientation_tag
  if 1 ≤ orientation ∧ orientation ≤ 8 then
    let exif : ExifDict :=
      match heif.exif with
      | some v =>
        if v.truthy then
          match exifLoad load v with
          | .ok d => { d with zerothOrientation := some orientation }
          | .error _ => freshExifDict orientation
        else freshExifDict orientation
      | none => freshExifDict orientation
    { heif with
      transformations := { heif.transformations with orientation_tag := 0 },
      exif := some (.dumped exif) }
  else heif

/-- A parser that rejects every raw payload; used to instantiate the
abstract piexif parser on concrete inputs. -/
def trivialLoad : List Nat → Except Unit ExifDict := fun _ => .error ()

/-! ## Exif extraction (`_extract_heif_exif`) -/

/-- The 4 bytes of the ASCII sequence Exif. -/
def exifMagic : List Nat := [0x45, 0x78, 0x69, 0x66]

/-- The guard `item['data'] and item['data'][0:4] == b"Exif"`. -/
def validExifData (d : List Nat) : Bool :=
  d ≠ [] ∧ d.take 4 = exifMagic

/-- The loop of `_extract_heif_exif`: walks the items carrying the Exif
payload found so far; an Exif-typed item sets the payload if none is set
yet and its data passes the magic check, and is dropped from the clean
metadata either way; every other item is kept in order. -/
def extractLoop : Option (List Nat) → List MetadataItem →
    Option (List Nat) × List MetadataItem
  | exif, [] => (exif, [])
  | exif, item :: rest =>
    if item.type = "Exif" then
      extractLoop
        (if exif = none ∧ validExifData item.data then some item.data else exif) rest
    else
      let r := extractLoop exif rest
      (r.1, item :: r.2)

/-- Embedding of `_extract_heif_exif` as a pure function from the
metadata item list to the extracted Exif payload and the cleaned
metadata list (the Python function stores these two results into the
heif file in place, starting from `exif = None`). -/
def extract_heif_exif (items : List MetadataItem) : Option (List Nat) × List MetadataItem :=
  extractLoop none items

/-! ## Save path (`_save`) -/

/-- The configured encoder binary name. -/
def HEIF_ENC_BIN : String := "heif-enc"

/-- A Python value of the save-options map that the plugin compares with
small integers and concatenates to strings: an integer or a string. -/
inductive PyVal where
  | int (i : Int)
  | str (s : String)
deriving Repr, DecidableEq

/-- The recognized save options read by `_save` when building the
encoder command (each absent when not supplied by the caller). -/
structure SaveInfo where
  avif : Option Bool
  encoder : Option String
  quality : Option Int
  downsampling : Option String
  subsampling : Option PyVal
  speed : Option Int
  concurrency : Option Int
deriving Repr, DecidableEq

/-- Errors of the save path: the palette-mode rejection (IOError), the
downsampling validation failure (ValueError), the TypeError a
non-string, unrecognized subsampling value causes when concatenated to
a string, the nonzero-exit failure (CalledProcessError carrying the
return code and the command), and the missing-binary failure
(FileNotFoundError). -/
inductive SaveError where
  | unsupportedMode (mode : String)
  | invalidOption (value : String)
  | typeError
  | processError (returncode : Int) (cmd : List String)
  | encoderNotFound
deriving Repr, DecidableEq

/-- The suffix of `fname` after its last dot, or `fname` itself when it
has no dot: `filename.rpartition(".")[2]`. -/
def extOf (fname : String) : String :=
  String.mk ((fname.toList.reverse.takeWhile (fun c => c ≠ '.')).reverse)

/-- Python str.lower modelled characterwise (the compared extension
token avif is ASCII, where the two agree). -/
def strLower (s : String) : String :=
  String.mk (s.toList.map Char.toLower)

/-- Resolution of the container variant: an explicit `avif` option wins;
otherwise a nonempty target filename selects AVIF exactly when the
lowercased text after its last dot is avif; an empty filename leaves the
option falsy. -/
def avifResolved (info : SaveInfo) (fname : String) : Bool :=
  match info.avif with
  | some b => b
  | none => if fname ≠ "" then strLower (extOf fname) = "avif" else false

/-- The base command: binary, output to the standard-output device, and
the temporary carrier file name. -/
def baseCmd (tmpname : String) : List String :=
  [HEIF_ENC_BIN, "-o", "/dev/stdout", tmpname]

/-- The AVIF-selection flag, appended when the resolved variant is AVIF. -/
def avifArgs (info : SaveInfo) (fname : String) : List String :=
  if avifResolved info fname then ["-A"] else []

/-- The encoder-selection arguments: appended when the encoder option is
a truthy (nonempty) string. -/
def encoderArgs (info : SaveInfo) : List String :=
  match info.encoder with
  | some e => if e ≠ "" then ["-e", e] else []
  | none => []

/-- The quality arguments: appended, unvalidated, when set. -/
def qualityArgs (info : SaveInfo) : List String :=
  match info.quality with
  | some q => ["-q", toString q]
  | none => []

/-- The chroma arguments for a set subsampling value: the integers 0, 1,
2 map to the tokens 444, 422, 420; any other value is concatenated
verbatim after `chroma=` if it is a string, and a non-string value
fails at the concatenation. -/
def chromaArgs (v : PyVal) : Except SaveError (List String) :=
  let v := if v = .int 0 then PyVal.str "444"
    else if v = .int 1 then PyVal.str "422"
    else if v = .int 2 then PyVal.str "420"
    else v
  match v with
  | .str s => .ok ["-p", "chroma=" ++ s]
  | .int _ => .error .typeError

/-- The speed arguments: appended when set. -/
def speedArgs (info : SaveInfo) : List String :=
  match info.speed with
  | some sp => ["-p", "speed=" ++ toString sp]
  | none => []

/-- The thread-count arguments: appended when set. -/
def threadArgs (info : SaveInfo) : List String :=
  match info.concurrency with
  | some c => ["-p", "threads=" ++ toString c]
  | none => []

/-- The tail of the command after the downsampling arguments:
subsampling (fallible), then speed, then thread count. -/
def buildRest (cmd : List String) (info : SaveInfo) : Except SaveError (List String) :=
  match info.subsampling with
  | some v =>
    match chromaArgs v with
    | .ok args => .ok (cmd ++ args ++ speedArgs info ++ threadArgs info)
    | .error e => .error e
  | none => .ok (cmd ++ speedArgs info ++ threadArgs info)

/-- Embedding of the command construction of `_save`: the palette modes
P and PA are rejected first; then the command is assembled in the order
of the source (base, AVIF flag, encoder, quality, downsampling, chroma,
speed, threads), with the downsampling value validated against the three
recognized tokens before the chroma step runs. -/
def buildCmd (mode : String) (info : SaveInfo) (fname tmpname : String) :
    Except SaveError (List String) :=
  if mode = "P" ∨ mode = "PA" then .error (.unsupportedMode mode)
  else
    let cmd := baseCmd tmpname ++ avifArgs info fname ++ encoderArgs info ++ qualityArgs info
    match info.downsampling with
    | some d =>
      if d = "nn" ∨ d = "average" ∨ d = "sharp-yuv" then
        buildRest (cmd ++ ["-C", d]) info
      else .error (.invalidOption d)
    | none => buildRest cmd info

/-- Bytes delivered by the read loop `iter(lambda: stdout.read(128 *
1024), b"")`: successive chunks are drained and forwarded until the
first empty read (end of the stream). -/
def drainChunks : List (List Nat) → List Nat
  | [] => []
  | c :: rest => if c = [] then [] else c ++ drainChunks rest

deriving instance DecidableEq for Except

/-- Observable outcome of one run of the save pipeline: whether the
encoder child process was launched, the bytes the destination sink
received, and the result. -/
structure SaveRun where
  launched : Bool
  sinkBytes : List Nat
  outcome : Except SaveError Unit
deriving Repr, DecidableEq

/-- Embedding of the process part of `_save`: the command is built
before any subprocess work; a build failure launches nothing and writes
nothing.  Otherwise the child is spawned (failing with the
missing-binary error when the executable is absent), its output is
drained chunk by chunk into the sink until the stream ends, and only
then is the exit status checked: a nonzero status fails with the
process error carrying the return code and the command. -/
def runSave (mode : String) (info : SaveInfo) (fname tmpname : String)
    (encFound : Bool) (chunks : List (List Nat)) (exitCode : Int) : SaveRun :=
  match buildCmd mode info fname tmpname with
  | .error e => { launched := false, sinkBytes := [], outcome := .error e }
  | .ok cmd =>
    if encFound then
      let streamed := drainChunks chunks
      if exitCode ≠ 0 then
        { launched := true, sinkBytes := streamed,
          outcome := .error (.processError exitCode cmd) }
      else
        { launched := true, sinkBytes := streamed, outcome := .ok () }
    else
      { launched := false, sinkBytes := [], outcome := .error .encoderNotFound }

/-! ## Concrete inputs used to instantiate the theorems -/

/-- A 3x3 grayscale file with a pending 2x2 crop at the origin. -/
def cropSample : HeifFile :=
  { mode := "L", size := (3, 3), stride := 3, data := .buffer 0 9,
    transformations := { crop := (0, 0, 2, 2), orientation_tag := 0 },
    exif := none, metadata := [] }

/-- A 2x2 grayscale file, stride 2, buffer of 4 bytes, with a pending
in-bounds crop (1, 0, 1, 2): the right column. -/
def overrunSample : HeifFile :=
  { mode := "L", size := (2, 2), stride := 2, data := .buffer 0 4,
    transformations := { crop := (1, 0, 1, 2), orientation_tag := 0 },
    exif := none, metadata := [] }

/-- A file in an unsupported mode whose pending crop equals its full
bounds. -/
def fullBoundsSample : HeifFile :=
  { mode := "P", size := (2, 2), stride := 2, data := .buffer 7 4,
    transformations := { crop := (0, 0, 2, 2), orientation_tag := 5 },
    exif := none, metadata := [] }

/-- A file with orientation tag 3 and no Exif payload. -/
def rotateSample : HeifFile :=
  { mode := "RGB", size := (1, 1), stride := 3, data := .buffer 1 3,
    transformations := { crop := (0, 0, 1, 1), orientation_tag := 3 },
    exif := none, metadata := [] }

/-- A file with orientation tag 0 (no rotation asserted). -/
def noRotateSample : HeifFile :=
  { mode := "RGB", size := (1, 1), stride := 3, data := .buffer 1 3,
    transformations := { crop := (0, 0, 1, 1), orientation_tag := 0 },
    exif := some (.raw [1, 2, 3]), metadata := [] }

/-- A save-options set with every option absent. -/
def emptyInfo : SaveInfo :=
  { avif := none, encoder := none, quality := none, downsampling := none,
    subsampling := none, speed := none, concurrency := none }

/-- A save-options set whose downsampling value is unrecognized. -/
def badDownsamplingInfo : SaveInfo :=
  { emptyInfo with downsampling := some "bogus" }

/-- A save-options set whose subsampling value is the string 411,
outside the recognized integer set. -/
def strSubsamplingInfo : SaveInfo :=
  { emptyInfo with subsampling := some (.str "411") }

/-! ## Theorems about the crop -/

/-- C9: cropping a file whose pending crop rectangle equals the full
bounds (0, 0, width, height) is a no-op: the input file itself is
returned unchanged, with no view allocated, regardless of its pixel
mode. -/
theorem crop_full_bounds_noop (heif : HeifFile)
    (h : heif.transformations.crop = (0, 0, heif.size.1, heif.size.2)) :
    crop_heif_file heif = .ok heif := by
  unfold crop_heif_file
  simp [h]

/-- Witness for crop_full_bounds_noop at a concrete file in the
unsupported mode P, showing the fast path ignores the mode. -/
theorem crop_full_bounds_noop_witness :
    crop_heif_file fullBoundsSample = .ok fullBoundsSample :=
  crop_full_bounds_noop fullBoundsSample (by decide)

/-- C2: cropping a file whose pending in-bounds crop rectangle
(x, y, w, h) differs from the full bounds and whose mode is L, RGB or
RGBA (pixel size 1, 3, 4 = the length of the mode string) returns a new
file of size (w, h) whose pending crop is (0, 0, w, h) and whose pixel
data is a view over the same underlying storage, starting at byte
offset stride * y + pixel_size * x, of length stride * h: no byte is
copied. -/
theorem crop_zero_copy (heif : HeifFile) (id len x y w h : Nat)
    (hdata : heif.data = .buffer id len)
    (hcrop : heif.transformations.crop = (x, y, w, h))
    (hne : (x, y, w, h) ≠ (0, 0, heif.size.1, heif.size.2))
    (hmode : heif.mode = "L" ∨ heif.mode = "RGB" ∨ heif.mode = "RGBA")
    (hx : x + w ≤ heif.size.1) (hy : y + h ≤ heif.size.2) :
    crop_heif_file heif = .ok { heif with
      size := (w, h),
      transformations := { heif.transformations with crop := (0, 0, w, h) },
      data := .view id (heif.stride * y + heif.mode.length * x) (heif.stride * h) } := by
  unfold crop_heif_file
  rw [hcrop, if_neg hne, if_neg (not_not_intro hmode)]
  simp [hdata, PixelData.baseId, PixelData.startOffset]

/-- Witness for crop_zero_copy at a concrete 3x3 grayscale file with
pending crop (0, 0, 2, 2). -/
theorem crop_zero_copy_witness :
    crop_heif_file cropSample = .ok { cropSample with
      size := (2, 2),
      transformations := { cropSample.transformations with crop := (0, 0, 2, 2) },
      data := .view 0 (cropSample.stride * 0 + cropSample.mode.length * 0)
        (cropSample.stride * 2) } :=
  crop_zero_copy cropSample 0 9 0 0 2 2 rfl rfl (by decide) (Or.inl rfl)
    (by decide) (by decide)

/-- C1 evaluation: on the concrete 2x2 grayscale file with stride 2, a
4-byte buffer and the in-bounds pending crop (1, 0, 1, 2), the crop
succeeds and builds a view whose end, byte offset plus length, is 5,
exceeding the 4-byte length of the original buffer: the claimed bound
byteOffset + stride * crop.height <= original buffer length fails. -/
theorem crop_view_exceeds_buffer :
    (crop_heif_file overrunSample).toOption.map (fun f => f.data) = some (.view 0 1 4)
    ∧ (crop_heif_file overrunSample).toOption.map
        (fun f => decide (f.data.startOffset + f.data.byteLen ≤ overrunSample.data.byteLen))
        = some false
    ∧ overrunSample.data.byteLen = overrunSample.stride * overrunSample.size.2
    ∧ overrunSample.transformations.crop.1 + overrunSample.transformations.crop.2.2.1
        ≤ overrunSample.size.1
    ∧ overrunSample.transformations.crop.2.1 + overrunSample.transformations.crop.2.2.2
        ≤ overrunSample.size.2 := by
  decide

/-! ## Theorems about orientation reconciliation -/

/-- C5: when the orientation tag is outside 1..8, the reconciliation is
the identity: the file is returned unchanged, for every behaviour of
the external Exif parser. -/
theorem rotate_out_of_range_identity (load : List Nat → Except Unit ExifDict)
    (heif : HeifFile)
    (h : ¬ (1 ≤ heif.transformations.orientation_tag
      ∧ heif.transformations.orientation_tag ≤ 8)) :
    rotate_heif_file load heif = heif := by
  unfold rotate_heif_file
  simp [h]

/-- Witness for rotate_out_of_range_identity at a concrete file with
orientation tag 0. -/
theorem rotate_out_of_range_identity_witness :
    rotate_heif_file trivialLoad noRotateSample = noRotateSample :=
  rotate_out_of_range_identity trivialLoad noRotateSample (by decide)

/-- C4: when the orientation tag is in 1..8 and the Exif payload is
absent, the reconciliation produces a file whose Exif payload is the
dumped directory holding exactly that orientation value as its
orientation field and nothing else, and whose orientation tag is 0. -/
theorem rotate_absent_exif (load : List Nat → Except Unit ExifDict) (heif : HeifFile)
    (h1 : 1 ≤ heif.transformations.orientation_tag)
    (h8 : heif.transformations.orientation_tag ≤ 8)
    (hexif : heif.exif = none) :
    (rotate_heif_file load heif).exif
      = some (.dumped
          { zerothOrientation := some heif.transformations.orientation_tag,
            zerothOther := [], otherIFDs := [] })
    ∧ (rotate_heif_file load heif).transformations.orientation_tag = 0 := by
  unfold rotate_heif_file
  simp [hexif, h1, h8, freshExifDict]

/-- Witness for rotate_absent_exif at a concrete file with orientation
tag 3 and no Exif payload. -/
theorem rotate_absent_exif_witness :
    (rotate_heif_file trivialLoad rotateSample).exif
      = some (.dumped
          { zerothOrientation := some rotateSample.transformations.orientation_tag,
            zerothOther := [], otherIFDs := [] })
    ∧ (rotate_heif_file trivialLoad rotateSample).transformations.orientation_tag = 0 :=
  rotate_absent_exif trivialLoad rotateSample (by decide) (by decide) rfl

/-! ## Theorems about Exif extraction -/

/-- The loop of the extraction keeps an already-found Exif payload and
filters the remaining items. -/
theorem extractLoop_some (e : List Nat) (items : List MetadataItem) :
    extractLoop (some e) items
      = (some e, items.filter (fun it => !(decide (it.type = "Exif")))) := by
  induction items with
  | nil => simp [extractLoop]
  | cons item rest ih =>
    by_cases h : item.type = "Exif" <;> simp [extractLoop, h, ih]

/-- The loop of the extraction, started with no payload found, returns
the data of the first Exif-typed item passing the magic check and the
non-Exif items in order. -/
theorem extractLoop_none (items : List MetadataItem) :
    extractLoop none items
      = ((items.find? (fun it => decide (it.type = "Exif") && validExifData it.data)).map
          MetadataItem.data,
         items.filter (fun it => !(decide (it.type = "Exif")))) := by
  induction items with
  | nil => simp [extractLoop]
  | cons item rest ih =>
    by_cases h : item.type = "Exif"
    · by_cases hv : validExifData item.data
      · simp [extractLoop, h, hv, extractLoop_some, List.find?_cons, List.filter_cons]
      · simp [extractLoop, h, hv, ih, List.find?_cons, List.filter_cons]
    · simp [extractLoop, h, ih, List.find?_cons, List.filter_cons]

/-- C3: the extraction returns as the Exif payload the data of the
first item of type Exif whose data begins with the 4-byte ASCII
sequence Exif (none when no such item exists), drops every other
Exif-typed item, and returns exactly the non-Exif items, in their
original order, as the cleaned metadata. -/
theorem extract_first_valid_exif (items : List MetadataItem) :
    (extract_heif_exif items).1
      = (items.find? (fun it => decide (it.type = "Exif") && validExifData it.data)).map
          MetadataItem.data
    ∧ (extract_heif_exif items).2
      = items.filter (fun it => !(decide (it.type = "Exif"))) := by
  rw [extract_heif_exif, extractLoop_none]
  exact ⟨rfl, rfl⟩

/-! ## Theorems about the encoder command and the pipeline -/

/-- Decimal digit characters are never the minus sign or the letter A. -/
theorem digitChar_not_dash_A (n : Nat) : Nat.digitChar n ≠ '-' ∧ Nat.digitChar n ≠ 'A' := by
  by_cases h : n < 16
  · interval_cases n <;> exact ⟨by decide, by decide⟩
  · have h0 : ¬ n = 0 := by omega
    have h1 : ¬ n = 1 := by omega
    have h2 : ¬ n = 2 := by omega
    have h3 : ¬ n = 3 := by omega
    have h4 : ¬ n = 4 := by omega
    have h5 : ¬ n = 5 := by omega
    have h6 : ¬ n = 6 := by omega
    have h7 : ¬ n = 7 := by omega
    have h8 : ¬ n = 8 := by omega
    have h9 : ¬ n = 9 := by omega
    have h10 : ¬ n = 10 := by omega
    have h11 : ¬ n = 11 := by omega
    have h12 : ¬ n = 12 := by omega
    have h13 : ¬ n = 13 := by omega
    have h14 : ¬ n = 14 := by omega
    have h15 : ¬ n = 15 := by omega
    have hstar : Nat.digitChar n = '*' := by
      simp only [Nat.digitChar, if_neg h0, if_neg h1, if_neg h2, if_neg h3, if_neg h4,
        if_neg h5, if_neg h6, if_neg h7, if_neg h8, if_neg h9, if_neg h10, if_neg h11,
        if_neg h12, if_neg h13, if_neg h14, if_neg h15]
    rw [hstar]
    exact ⟨by decide, by decide⟩

/-- Every character produced by the decimal digit accumulator is a digit
character or comes from the accumulator; none is the minus sign or A. -/
theorem toDigitsCore_not_dash_A (fuel : Nat) :
    ∀ (n : Nat) (acc : List Char), (∀ c ∈ acc, c ≠ '-' ∧ c ≠ 'A') →
      ∀ c ∈ Nat.toDigitsCore 10 fuel n acc, c ≠ '-' ∧ c ≠ 'A' := by
  induction fuel with
  | zero =>
    intro n acc hacc
    simpa [Nat.toDigitsCore] using hacc
  | succ fuel ih =>
    intro n acc hacc c hc
    rw [Nat.toDigitsCore] at hc
    split at hc
    · rcases List.mem_cons.mp hc with rfl | h
      · exact digitChar_not_dash_A _
      · exact hacc _ h
    · refine ih _ _ ?_ c hc
      intro c' hc'
      rcases List.mem_cons.mp hc' with rfl | h
      · exact digitChar_not_dash_A _
      · exact hacc _ h

/-- No character of the decimal representation of a natural number is
the minus sign or the letter A. -/
theorem natRepr_not_dash_A (n : Nat) : ∀ c ∈ (Nat.repr n).data, c ≠ '-' ∧ c ≠ 'A' := by
  intro c hc
  have h : (Nat.repr n).data = Nat.toDigits 10 n := rfl
  rw [h] at hc
  exact toDigitsCore_not_dash_A (n + 1) n [] (by simp) c hc

/-- The decimal representation of an integer is never the string -A. -/
theorem toString_int_ne_dash_A (q : Int) : toString q ≠ "-A" := by
  cases q with
  | ofNat m =>
    intro h
    have hm : Nat.repr m = "-A" := h
    have hd : (Nat.repr m).data = ['-', 'A'] := by rw [hm]
    have hmem : '-' ∈ (Nat.repr m).data := by rw [hd]; exact List.mem_cons_self _ _
    exact (natRepr_not_dash_A m '-' hmem).1 rfl
  | negSucc m =>
    intro h
    have hm : "-" ++ Nat.repr (m + 1) = "-A" := h
    have hd : '-' :: (Nat.repr (m + 1)).data = ['-', 'A'] := by
      have := congrArg String.data hm
      simpa using this
    have h2 : (Nat.repr (m + 1)).data = ['A'] := by
      simpa using hd
    have hmem : 'A' ∈ (Nat.repr (m + 1)).data := by rw [h2]; exact List.mem_cons_self _ _
    exact (natRepr_not_dash_A (m + 1) 'A' hmem).2 rfl

/-- Appending anything to a string of length at least 3 never yields the
two-character string -A. -/
theorem append_len3_ne_dash_A (p t : String) (hp : 3 ≤ p.length) : p ++ t ≠ "-A" := by
  intro h
  have hl := congrArg String.length h
  rw [String.length_append] at hl
  have h2 : ("-A" : String).length = 2 := rfl
  omega

/-- The AVIF-selection flag is not among the base command tokens when
the carrier file name differs from it. -/
theorem not_mem_dash_A_baseCmd (tmpname : String) (h : tmpname ≠ "-A") :
    "-A" ∉ baseCmd tmpname := by
  intro hm
  simp only [baseCmd, HEIF_ENC_BIN, List.mem_cons, List.not_mem_nil, or_false] at hm
  rcases hm with h1 | h1 | h1 | h1
  · exact absurd h1 (by decide)
  · exact absurd h1 (by decide)
  · exact absurd h1 (by decide)
  · exact h h1.symm

/-- The AVIF-selection flag is not among the encoder-selection tokens
when the encoder option is not itself that flag. -/
theorem not_mem_dash_A_encoderArgs (info : SaveInfo) (h : info.encoder ≠ some "-A") :
    "-A" ∉ encoderArgs info := by
  unfold encoderArgs
  split
  · split
    · intro hm
      simp only [List.mem_cons, List.not_mem_nil, or_false] at hm
      rcases hm with h1 | h1
      · exact absurd h1 (by decide)
      · exact h (by simp_all)
    · simp
  · simp

/-- The AVIF-selection flag is not among the quality tokens. -/
theorem not_mem_dash_A_qualityArgs (info : SaveInfo) : "-A" ∉ qualityArgs info := by
  unfold qualityArgs
  split
  · intro hm
    simp only [List.mem_cons, List.not_mem_nil, or_false] at hm
    rcases hm with h1 | h1
    · exact absurd h1 (by decide)
    · exact toString_int_ne_dash_A _ h1.symm
  · simp

/-- The AVIF-selection flag is not among the speed tokens. -/
theorem not_mem_dash_A_speedArgs (info : SaveInfo) : "-A" ∉ speedArgs info := by
  unfold speedArgs
  split
  · intro hm
    simp only [List.mem_cons, List.not_mem_nil, or_false] at hm
    rcases hm with h1 | h1
    · exact absurd h1 (by decide)
    · exact append_len3_ne_dash_A "speed=" _ (by decide) h1.symm
  · simp

/-- The AVIF-selection flag is not among the thread-count tokens. -/
theorem not_mem_dash_A_threadArgs (info : SaveInfo) : "-A" ∉ threadArgs info := by
  unfold threadArgs
  split
  · intro hm
    simp only [List.mem_cons, List.not_mem_nil, or_false] at hm
    rcases hm with h1 | h1
    · exact absurd h1 (by decide)
    · exact append_len3_ne_dash_A "threads=" _ (by decide) h1.symm
  · simp

/-- The AVIF-selection flag is not among the chroma tokens. -/
theorem not_mem_dash_A_chromaArgs (v : PyVal) (args : List String)
    (h : chromaArgs v = .ok args) : "-A" ∉ args := by
  cases v with
  | str s =>
    simp only [chromaArgs, reduceCtorEq, if_false, Except.ok.injEq] at h
    subst h
    intro hm
    simp only [List.mem_cons, List.not_mem_nil, or_false] at hm
    rcases hm with h1 | h1
    · exact absurd h1 (by decide)
    · exact append_len3_ne_dash_A "chroma=" _ (by decide) h1.symm
  | int i =>
    by_cases h0 : i = 0
    · subst h0
      have hx : (Except.ok ["-p", "chroma=444"] : Except SaveError (List String))
          = .ok args := h
      injection hx with hx
      subst hx
      decide
    · by_cases h1 : i = 1
      · subst h1
        have hx : (Except.ok ["-p", "chroma=422"] : Except SaveError (List String))
            = .ok args := h
        injection hx with hx
        subst hx
        decide
      · by_cases h2 : i = 2
        · subst h2
          have hx : (Except.ok ["-p", "chroma=420"] : Except SaveError (List String))
              = .ok args := h
          injection hx with hx
          subst hx
          decide
        · simp [chromaArgs, h0, h1, h2] at h

/-- A chroma failure is the string-concatenation type failure. -/
theorem chromaArgs_error (v : PyVal) (e : SaveError) (h : chromaArgs v = .error e) :
    e = .typeError := by
  cases v with
  | str s => simp [chromaArgs] at h
  | int i =>
    by_cases h0 : i = 0
    · subst h0; simp [chromaArgs] at h
    · by_cases h1 : i = 1
      · subst h1; simp [chromaArgs] at h
      · by_cases h2 : i = 2
        · subst h2; simp [chromaArgs] at h
        · simp [chromaArgs, h0, h1, h2] at h
          exact h.symm

/-- A successful tail build appends tokens free of the AVIF flag. -/
theorem buildRest_ok_shape (c : List String) (info : SaveInfo) (out : List String)
    (h : buildRest c info = .ok out) :
    ∃ t, out = c ++ t ∧ "-A" ∉ t := by
  unfold buildRest at h
  split at h
  case _ v heq =>
    split at h
    case _ args hargs =>
      refine ⟨args ++ speedArgs info ++ threadArgs info, ?_, ?_⟩
      · injection h with h
        rw [← h]
        simp [List.append_assoc]
      · intro hm
        rcases List.mem_append.mp hm with hm | hm
        · rcases List.mem_append.mp hm with hm | hm
          · exact not_mem_dash_A_chromaArgs v args hargs hm
          · exact not_mem_dash_A_speedArgs info hm
        · exact not_mem_dash_A_threadArgs info hm
    case _ e heqe => exact absurd h (by simp)
  case _ =>
    refine ⟨speedArgs info ++ threadArgs info, ?_, ?_⟩
    · injection h with h
      rw [← h]
      simp [List.append_assoc]
    · intro hm
      rcases List.mem_append.mp hm with hm | hm
      · exact not_mem_dash_A_speedArgs info hm
      · exact not_mem_dash_A_threadArgs info hm

/-- A tail-build failure is the string-concatenation type failure. -/
theorem buildRest_error (c : List String) (info : SaveInfo) (e : SaveError)
    (h : buildRest c info = .error e) : e = .typeError := by
  unfold buildRest at h
  split at h
  case _ v heq =>
    split at h
    case _ args hargs => exact absurd h (by simp)
    case _ e' heqe =>
      injection h with h
      rw [← h]
      exact chromaArgs_error v e' heqe
  case _ => exact absurd h (by simp)

/-- A successfully built command is the base command, then the AVIF
flag when the variant resolves to AVIF, then the encoder and quality
tokens, then a tail free of the AVIF flag. -/
theorem buildCmd_ok_shape (mode : String) (info : SaveInfo) (fname tmpname : String)
    (cmd : List String) (hok : buildCmd mode info fname tmpname = .ok cmd) :
    ∃ t, cmd = baseCmd tmpname ++ avifArgs info fname ++ encoderArgs info
        ++ qualityArgs info ++ t
      ∧ "-A" ∉ t := by
  unfold buildCmd at hok
  split at hok
  · exact absurd hok (by simp)
  · split at hok
    case _ d heq =>
      split at hok
      case _ hd =>
        obtain ⟨t, ht, hA⟩ := buildRest_ok_shape _ info cmd hok
        refine ⟨["-C", d] ++ t, ?_, ?_⟩
        · rw [ht]; simp [List.append_assoc]
        · intro hm
          rcases List.mem_append.mp hm with hm | hm
          · simp only [List.mem_cons, List.not_mem_nil, or_false] at hm
            rcases hm with h1 | h1
            · exact absurd h1 (by decide)
            · rcases hd with rfl | rfl | rfl <;> exact absurd h1 (by decide)
          · exact hA hm
      case _ hd => exact absurd hok (by simp)
    case _ =>
      exact buildRest_ok_shape _ info cmd hok

/-- The AVIF flag is among the variant tokens exactly when the variant
resolves to AVIF. -/
theorem mem_dash_A_avifArgs (info : SaveInfo) (fname : String) :
    "-A" ∈ avifArgs info fname ↔ avifResolved info fname = true := by
  unfold avifArgs
  split
  case _ h => simp [h]
  case _ h => simp [h]

/-- C6: with the container-variant option unset and a nonempty target
filename, a successfully built command contains the AVIF-selection flag
exactly when the lowercased text after the last dot of the filename is
avif (the encoder option and the carrier file name are assumed to differ
from the flag token, which no other option can produce). -/
theorem build_avif_flag (info : SaveInfo) (mode fname tmpname : String)
    (cmd : List String)
    (hav : info.avif = none) (hfn : fname ≠ "")
    (henc : info.encoder ≠ some "-A") (htmp : tmpname ≠ "-A")
    (hok : buildCmd mode info fname tmpname = .ok cmd) :
    "-A" ∈ cmd ↔ strLower (extOf fname) = "avif" := by
  obtain ⟨t, rfl, hA⟩ := buildCmd_ok_shape mode info fname tmpname cmd hok
  have hres : avifResolved info fname = decide (strLower (extOf fname) = "avif") := by
    unfold avifResolved
    rw [hav]
    simp [hfn]
  constructor
  · intro hm
    rcases List.mem_append.mp hm with hm | hm
    · rcases List.mem_append.mp hm with hm | hm
      · rcases List.mem_append.mp hm with hm | hm
        · rcases List.mem_append.mp hm with hm | hm
          · exact absurd hm (not_mem_dash_A_baseCmd tmpname htmp)
          · have := (mem_dash_A_avifArgs info fname).mp hm
            rw [hres] at this
            exact of_decide_eq_true this
        · exact absurd hm (not_mem_dash_A_encoderArgs info henc)
      · exact absurd hm (not_mem_dash_A_qualityArgs info)
    · exact absurd hm hA
  · intro hext
    have hr : avifResolved info fname = true := by
      rw [hres]
      exact decide_eq_true hext
    have hmem : "-A" ∈ avifArgs info fname := (mem_dash_A_avifArgs info fname).mpr hr
    exact List.mem_append.mpr (Or.inl (List.mem_append.mpr (Or.inl
      (List.mem_append.mpr (Or.inl (List.mem_append.mpr (Or.inr hmem)))))))

/-- Witness for build_avif_flag: with no options set, a target filename
photo.AVIF yields a command carrying the AVIF-selection flag. -/
theorem build_avif_flag_witness :
    "-A" ∈ ["heif-enc", "-o", "/dev/stdout", "/tmp/t.png", "-A"]
      ↔ strLower (extOf "photo.AVIF") = "avif" :=
  build_avif_flag emptyInfo "RGB" "photo.AVIF" "/tmp/t.png"
    ["heif-enc", "-o", "/dev/stdout", "/tmp/t.png", "-A"]
    rfl (by decide) (by decide) (by decide) (by decide)

/-- C7: with a palette-free mode and the downsampling option set to d,
the build fails with the invalid-option failure for d exactly when d is
not one of nn, average, sharp-yuv; every build failure launches no
child process and writes nothing to the sink; and a successful build
appends the filter flag followed by the token d. -/
theorem build_downsampling_check (info : SaveInfo) (mode fname tmpname d : String)
    (cmd : List String) (found : Bool) (chunks : List (List Nat)) (code : Int)
    (hmode : ¬ (mode = "P" ∨ mode = "PA")) (hd : info.downsampling = some d) :
    (buildCmd mode info fname tmpname = .error (.invalidOption d)
      ↔ ¬ (d = "nn" ∨ d = "average" ∨ d = "sharp-yuv"))
    ∧ (buildCmd mode info fname tmpname = .error (.invalidOption d) →
        runSave mode info fname tmpname found chunks code
          = { launched := false, sinkBytes := [], outcome := .error (.invalidOption d) })
    ∧ (buildCmd mode info fname tmpname = .ok cmd →
        ∃ pre post, cmd = pre ++ ["-C", d] ++ post) := by
  refine ⟨⟨?_, ?_⟩, ?_, ?_⟩
  · intro herr hvalid
    unfold buildCmd at herr
    rw [if_neg hmode] at herr
    split at herr
    case _ dd heq =>
      rw [hd] at heq
      injection heq with heq
      subst heq
      rw [if_pos hvalid] at herr
      have := buildRest_error _ info _ herr
      simp at this
    case _ heq =>
      rw [hd] at heq
      cases heq
  · intro hinvalid
    unfold buildCmd
    rw [if_neg hmode]
    split
    case _ dd heq =>
      rw [hd] at heq
      injection heq with heq
      subst heq
      rw [if_neg hinvalid]
    case _ heq =>
      rw [hd] at heq
      cases heq
  · intro herr
    unfold runSave
    rw [herr]
  · intro hok
    unfold buildCmd at hok
    rw [if_neg hmode] at hok
    split at hok
    case _ dd heq =>
      rw [hd] at heq
      injection heq with heq
      subst heq
      split at hok
      case _ hvalid =>
        obtain ⟨t, ht, hA⟩ := buildRest_ok_shape _ info cmd hok
        refine ⟨baseCmd tmpname ++ avifArgs info fname ++ encoderArgs info
          ++ qualityArgs info, t, ?_⟩
        rw [ht]
      case _ hvalid =>
        exact absurd hok (by simp)
    case _ heq =>
      rw [hd] at heq
      cases heq

/-- Witness for build_downsampling_check: the downsampling value bogus
is rejected with the invalid-option failure and launches nothing. -/
theorem build_downsampling_check_witness :
    (buildCmd "RGB" badDownsamplingInfo "x.heic" "/tmp/t.png"
        = .error (.invalidOption "bogus")
      ↔ ¬ ("bogus" = "nn" ∨ "bogus" = "average" ∨ "bogus" = "sharp-yuv"))
    ∧ (buildCmd "RGB" badDownsamplingInfo "x.heic" "/tmp/t.png"
        = .error (.invalidOption "bogus") →
        runSave "RGB" badDownsamplingInfo "x.heic" "/tmp/t.png" true [[7]] 0
          = { launched := false, sinkBytes := [],
              outcome := .error (.invalidOption "bogus") })
    ∧ (buildCmd "RGB" badDownsamplingInfo "x.heic" "/tmp/t.png" = .ok [] →
        ∃ pre post, [] = pre ++ ["-C", "bogus"] ++ post) :=
  build_downsampling_check badDownsamplingInfo "RGB" "x.heic" "/tmp/t.png" "bogus"
    [] true [[7]] 0 (by decide) rfl

/-- C8: when the build succeeds and the encoder child process exits with
a nonzero status, the run fails with the process error carrying that
exit code and the command, and the sink has received exactly the bytes
the child streamed before exiting: the whole drained output, so the
failure surfaces only after the output stream is fully drained. -/
theorem encoder_nonzero_exit_fails (info : SaveInfo) (mode fname tmpname : String)
    (cmd : List String) (chunks : List (List Nat)) (code : Int)
    (hok : buildCmd mode info fname tmpname = .ok cmd) (hcode : code ≠ 0) :
    runSave mode info fname tmpname true chunks code
      = { launched := true, sinkBytes := drainChunks chunks,
          outcome := .error (.processError code cmd) } := by
  unfold runSave
  rw [hok]
  simp [hcode]

/-- Witness for encoder_nonzero_exit_fails: exit code 1 after streaming
two chunks leaves both chunks in the sink and fails with the process
error carrying code 1 and the command. -/
theorem encoder_nonzero_exit_fails_witness :
    runSave "RGB" emptyInfo "x.heic" "/tmp/t.png" true [[1, 2], [3]] 1
      = { launched := true, sinkBytes := drainChunks [[1, 2], [3]],
          outcome := .error (.processError 1
            ["heif-enc", "-o", "/dev/stdout", "/tmp/t.png"]) } :=
  encoder_nonzero_exit_fails emptyInfo "RGB" "x.heic" "/tmp/t.png"
    ["heif-enc", "-o", "/dev/stdout", "/tmp/t.png"] [[1, 2], [3]] 1 (by decide) (by decide)

/-- C10: with a palette-free mode, a valid or absent downsampling option
and the subsampling option set to a string s, the build raises no
failure and appends the chroma parameter with s concatenated verbatim
after chroma= (a string is never equal to the recognized integers 0, 1,
2, so no mapping and no validation applies). -/
theorem subsampling_string_passthrough (info : SaveInfo) (mode fname tmpname s : String)
    (hmode : ¬ (mode = "P" ∨ mode = "PA"))
    (hds : info.downsampling = none ∨ info.downsampling = some "nn"
      ∨ info.downsampling = some "average" ∨ info.downsampling = some "sharp-yuv")
    (hsub : info.subsampling = some (.str s)) :
    ∃ cmd pre post, buildCmd mode info fname tmpname = .ok cmd
      ∧ cmd = pre ++ ["-p", "chroma=" ++ s] ++ post := by
  have hchroma : chromaArgs (.str s) = .ok ["-p", "chroma=" ++ s] := by
    simp [chromaArgs]
  have hrest : ∀ c, buildRest c info
      = .ok (c ++ ["-p", "chroma=" ++ s] ++ speedArgs info ++ threadArgs info) := by
    intro c
    unfold buildRest
    split
    case _ v heq =>
      rw [hsub] at heq
      injection heq with heq
      subst heq
      rw [hchroma]
    case _ heq =>
      rw [hsub] at heq
      cases heq
  unfold buildCmd
  rw [if_neg hmode]
  split
  case _ dd heq =>
    have hvalid : dd = "nn" ∨ dd = "average" ∨ dd = "sharp-yuv" := by
      rcases hds with h | h | h | h
      · rw [h] at heq; cases heq
      · rw [h] at heq; injection heq with heq; exact Or.inl heq.symm
      · rw [h] at heq; injection heq with heq; exact Or.inr (Or.inl heq.symm)
      · rw [h] at heq; injection heq with heq; exact Or.inr (Or.inr heq.symm)
    rw [if_pos hvalid, hrest]
    refine ⟨_, baseCmd tmpname ++ avifArgs info fname ++ encoderArgs info
      ++ qualityArgs info ++ ["-C", dd], speedArgs info ++ threadArgs info, rfl, ?_⟩
    simp [List.append_assoc]
  case _ heq =>
    rw [hrest]
    refine ⟨_, baseCmd tmpname ++ avifArgs info fname ++ encoderArgs info
      ++ qualityArgs info, speedArgs info ++ threadArgs info, rfl, ?_⟩
    simp [List.append_assoc]

/-- Witness for subsampling_string_passthrough: the string 411 is
appended verbatim as chroma=411 with no failure. -/
theorem subsampling_string_passthrough_witness :
    ∃ cmd pre post, buildCmd "RGB" strSubsamplingInfo "x.heic" "/tmp/t.png" = .ok cmd
      ∧ cmd = pre ++ ["-p", "chroma=" ++ "411"] ++ post :=
  subsampling_string_passthrough strSubsamplingInfo "RGB" "x.heic" "/tmp/t.png" "411"
    (by decide) (Or.inl rfl) rfl

end HeifPlugin
